import Mathlib

/-
Verification of the minidump memory-reconstruction core.

Shallow embedding of the relevant parts of the repository:
  - src/minidump/common_structs.py
      MINIDUMP_LOCATION_DESCRIPTOR, MINIDUMP_LOCATION_DESCRIPTOR64,
      MinidumpMemorySegment (inrange, validate_address, read, search)
  - src/minidump/streams/MemoryListStream.py
      MINIDUMP_MEMORY_DESCRIPTOR (parse, to_bytes)
  - src/minidump/streams/Memory64ListStream.py
      MINIDUMP_MEMORY_DESCRIPTOR64, MINIDUMP_MEMORY64_LIST,
      MinidumpMemory64List.from_chunk_data

Bytes are modelled as Nat (each value below 256 in well-formed data); byte
buffers and file handles are a pair of the underlying byte list and a cursor,
mirroring Python io.BytesIO semantics: read(n) returns the available bytes
(possibly fewer than n, never an error) and advances the cursor by the number
of bytes actually returned; seek(n, 0) sets the absolute position; tell()
returns the position.
-/

/-- Little-endian unsigned decoding, as in Python
int.from_bytes(bs, byteorder="little", signed=False). -/
def fromBytesLE (bs : List Nat) : Nat :=
  bs.foldr (fun b acc => b + 256 * acc) 0

/-- Little-endian unsigned encoding of n into exactly w bytes, as in Python
n.to_bytes(w, byteorder="little", signed=False).  (Python raises
OverflowError when n does not fit in w bytes; every use below is guarded by
a fits-in-width hypothesis, where the two encodings agree.) -/
def toBytesLE : Nat → Nat → List Nat
  | 0, _ => []
  | w + 1, n => n % 256 :: toBytesLE w (n / 256)

/-- A cursor over a byte buffer: models Python io.BytesIO and the backing
file handle (both expose read/seek/tell). -/
structure ByteReader where
  data : List Nat
  pos : Nat
deriving DecidableEq, Repr

/-- BytesIO.read(n): returns data[pos : pos+n] (shorter when fewer bytes are
available, empty past the end) and advances the cursor by the number of
bytes returned. -/
def ByteReader.read (r : ByteReader) (n : Nat) : List Nat × ByteReader :=
  let out := (r.data.drop r.pos).take n
  (out, { r with pos := r.pos + out.length })

/-- BytesIO.seek(n, 0): absolute positioning. -/
def ByteReader.seek (r : ByteReader) (n : Nat) : ByteReader :=
  { r with pos := n }

/-- BytesIO.tell(). -/
def ByteReader.tell (r : ByteReader) : Nat :=
  r.pos

/-- MINIDUMP_LOCATION_DESCRIPTOR (common_structs.py): 32-bit width variant. -/
structure MINIDUMP_LOCATION_DESCRIPTOR where
  DataSize : Nat
  Rva : Nat
deriving DecidableEq, Repr

/-- MINIDUMP_LOCATION_DESCRIPTOR.to_bytes: DataSize as u32 LE then Rva as
u32 LE. -/
def MINIDUMP_LOCATION_DESCRIPTOR.to_bytes (v : MINIDUMP_LOCATION_DESCRIPTOR) : List Nat :=
  toBytesLE 4 v.DataSize ++ toBytesLE 4 v.Rva

/-- MINIDUMP_LOCATION_DESCRIPTOR.parse: two 4-byte little-endian reads from
the current position.  No length validation: buff.read(4) may return fewer
bytes and int.from_bytes decodes whatever was returned. -/
def MINIDUMP_LOCATION_DESCRIPTOR.parse (buff : ByteReader) :
    MINIDUMP_LOCATION_DESCRIPTOR × ByteReader :=
  let (b1, buff1) := buff.read 4
  let (b2, buff2) := buff1.read 4
  ({ DataSize := fromBytesLE b1, Rva := fromBytesLE b2 }, buff2)

/-- MINIDUMP_LOCATION_DESCRIPTOR64 (common_structs.py): 64-bit width variant. -/
structure MINIDUMP_LOCATION_DESCRIPTOR64 where
  DataSize : Nat
  Rva : Nat
deriving DecidableEq, Repr

/-- MINIDUMP_LOCATION_DESCRIPTOR64.to_bytes: DataSize as u64 LE then Rva as
u64 LE. -/
def MINIDUMP_LOCATION_DESCRIPTOR64.to_bytes (v : MINIDUMP_LOCATION_DESCRIPTOR64) : List Nat :=
  toBytesLE 8 v.DataSize ++ toBytesLE 8 v.Rva

/-- MINIDUMP_LOCATION_DESCRIPTOR64.parse: two 8-byte little-endian reads. -/
def MINIDUMP_LOCATION_DESCRIPTOR64.parse (buff : ByteReader) :
    MINIDUMP_LOCATION_DESCRIPTOR64 × ByteReader :=
  let (b1, buff1) := buff.read 8
  let (b2, buff2) := buff1.read 8
  ({ DataSize := fromBytesLE b1, Rva := fromBytesLE b2 }, buff2)

theorem toBytesLE_length (w n : Nat) : (toBytesLE w n).length = w := by
  induction w generalizing n with
  | zero => rfl
  | succ w ih => simp [toBytesLE, ih]

theorem fromBytesLE_toBytesLE (w n : Nat) (h : n < 256 ^ w) :
    fromBytesLE (toBytesLE w n) = n := by
  induction w generalizing n with
  | zero =>
    simp [toBytesLE, fromBytesLE]
    omega
  | succ w ih =>
    have hdiv : n / 256 < 256 ^ w := by
      rw [Nat.div_lt_iff_lt_mul (by norm_num)]
      calc n < 256 ^ (w + 1) := h
        _ = 256 ^ w * 256 := by ring
    have := ih (n / 256) hdiv
    simp only [toBytesLE, fromBytesLE, List.foldr] at this ⊢
    rw [this]
    omega

theorem parse_to_bytes_32 (v : MINIDUMP_LOCATION_DESCRIPTOR) :
    (MINIDUMP_LOCATION_DESCRIPTOR.parse ⟨v.to_bytes, 0⟩).1 =
      ⟨fromBytesLE (toBytesLE 4 v.DataSize), fromBytesLE (toBytesLE 4 v.Rva)⟩ := by
  have h1 : (toBytesLE 4 v.DataSize).length = 4 := toBytesLE_length 4 _
  have h2 : (toBytesLE 4 v.Rva).length = 4 := toBytesLE_length 4 _
  simp only [MINIDUMP_LOCATION_DESCRIPTOR.parse, MINIDUMP_LOCATION_DESCRIPTOR.to_bytes,
    ByteReader.read, List.drop_zero, List.take_left' h1, h1, Nat.zero_add]
  simp [List.drop_left' h1, List.take_of_length_le (le_of_eq h2)]

theorem parse_to_bytes_64 (v : MINIDUMP_LOCATION_DESCRIPTOR64) :
    (MINIDUMP_LOCATION_DESCRIPTOR64.parse ⟨v.to_bytes, 0⟩).1 =
      ⟨fromBytesLE (toBytesLE 8 v.DataSize), fromBytesLE (toBytesLE 8 v.Rva)⟩ := by
  have h1 : (toBytesLE 8 v.DataSize).length = 8 := toBytesLE_length 8 _
  have h2 : (toBytesLE 8 v.Rva).length = 8 := toBytesLE_length 8 _
  simp only [MINIDUMP_LOCATION_DESCRIPTOR64.parse, MINIDUMP_LOCATION_DESCRIPTOR64.to_bytes,
    ByteReader.read, List.drop_zero, List.take_left' h1, h1, Nat.zero_add]
  simp [List.drop_left' h1, List.take_of_length_le (le_of_eq h2)]

/-- Claim C8: for every LocationDescriptor value whose fields fit the
variant's field width, parsing the serialization yields the value back,
for both the 32-bit (8-byte) and the 64-bit (16-byte) width variants
(fixed-width little-endian unsigned encoding, no padding). -/
theorem location_descriptor_roundtrip
    (v : MINIDUMP_LOCATION_DESCRIPTOR) (w : MINIDUMP_LOCATION_DESCRIPTOR64)
    (hv1 : v.DataSize < 2 ^ 32) (hv2 : v.Rva < 2 ^ 32)
    (hw1 : w.DataSize < 2 ^ 64) (hw2 : w.Rva < 2 ^ 64) :
    (MINIDUMP_LOCATION_DESCRIPTOR.parse ⟨v.to_bytes, 0⟩).1 = v ∧
    (MINIDUMP_LOCATION_DESCRIPTOR64.parse ⟨w.to_bytes, 0⟩).1 = w := by
  have e32 : (256 : Nat) ^ 4 = 2 ^ 32 := by norm_num
  have e64 : (256 : Nat) ^ 8 = 2 ^ 64 := by norm_num
  constructor
  · rw [parse_to_bytes_32, fromBytesLE_toBytesLE 4 _ (by rw [e32]; exact hv1),
      fromBytesLE_toBytesLE 4 _ (by rw [e32]; exact hv2)]
  · rw [parse_to_bytes_64, fromBytesLE_toBytesLE 8 _ (by rw [e64]; exact hw1),
      fromBytesLE_toBytesLE 8 _ (by rw [e64]; exact hw2)]

/-- Witness for C8 at the concrete values (DataSize, Rva) = (5, 7) for the
32-bit variant and (11, 13) for the 64-bit variant. -/
theorem location_descriptor_roundtrip_witness :
    (MINIDUMP_LOCATION_DESCRIPTOR.parse
        ⟨MINIDUMP_LOCATION_DESCRIPTOR.to_bytes ⟨5, 7⟩, 0⟩).1 = ⟨5, 7⟩ ∧
    (MINIDUMP_LOCATION_DESCRIPTOR64.parse
        ⟨MINIDUMP_LOCATION_DESCRIPTOR64.to_bytes ⟨11, 13⟩, 0⟩).1 = ⟨11, 13⟩ :=
  location_descriptor_roundtrip ⟨5, 7⟩ ⟨11, 13⟩
    (by norm_num) (by norm_num) (by norm_num) (by norm_num)

/-- Claim C9 counterexample: on a buffer with no bytes available (fewer than
the 8 resp. 16 bytes the fixed-width fields require), parse does not fail:
read returns the empty byte string, int.from_bytes decodes it to 0, and a
descriptor with DataSize = 0 and Rva = 0 is returned, for both variants. -/
theorem short_buffer_parse_returns_descriptor :
    (MINIDUMP_LOCATION_DESCRIPTOR.parse ⟨[], 0⟩).1 = ⟨0, 0⟩ ∧
    (MINIDUMP_LOCATION_DESCRIPTOR64.parse ⟨[], 0⟩).1 = ⟨0, 0⟩ := by
  constructor <;> rfl

theorem drop_take_length (n : Nat) (l : List Nat) :
    l.drop (l.take n).length = l.drop n := by
  rcases le_total n l.length with h | h
  · rw [List.length_take, Nat.min_eq_left h]
  · rw [List.length_take, Nat.min_eq_right h, List.drop_length,
      List.drop_eq_nil_of_le h]

/-- Claim C9 amended: LocationDescriptor.parse performs no buffer-length
validation and never fails; each fixed-width field decodes exactly the
bytes actually available at its position (an empty read decodes to 0), so
on a short buffer it returns a descriptor built from the truncated data
rather than failing with an UnexpectedEndOfData condition. -/
theorem short_buffer_parse_decodes_available (bs : List Nat) (p : Nat) :
    (MINIDUMP_LOCATION_DESCRIPTOR.parse ⟨bs, p⟩).1 =
      ⟨fromBytesLE ((bs.drop p).take 4), fromBytesLE (((bs.drop p).drop 4).take 4)⟩ ∧
    (MINIDUMP_LOCATION_DESCRIPTOR64.parse ⟨bs, p⟩).1 =
      ⟨fromBytesLE ((bs.drop p).take 8), fromBytesLE (((bs.drop p).drop 8).take 8)⟩ := by
  constructor <;>
  · simp only [MINIDUMP_LOCATION_DESCRIPTOR.parse, MINIDUMP_LOCATION_DESCRIPTOR64.parse,
      ByteReader.read]
    rw [← List.drop_drop, drop_take_length]

/-- MinidumpMemorySegment (common_structs.py).  The dataclass has fields
size, start_file_address, start_virtual_address and a derived
end_virtual_address set by __post_init__. -/
structure MinidumpMemorySegment where
  size : Nat
  start_file_address : Nat
  start_virtual_address : Nat
  end_virtual_address : Nat
deriving DecidableEq, Repr

/-- Dataclass construction: __post_init__ sets
end_virtual_address = start_virtual_address + size.  Every segment the
program builds goes through this constructor. -/
def MinidumpMemorySegment.make (size start_file_address start_virtual_address : Nat) :
    MinidumpMemorySegment :=
  ⟨size, start_file_address, start_virtual_address,
   start_virtual_address + size⟩

/-- MinidumpMemorySegment.inrange. -/
def MinidumpMemorySegment.inrange (seg : MinidumpMemorySegment) (virt_addr : Nat) : Bool :=
  decide (seg.start_virtual_address ≤ virt_addr ∧
    virt_addr < seg.end_virtual_address)

/-- MinidumpMemorySegment.validate_address: the two raise sites become the
two error cases. -/
def MinidumpMemorySegment.validate_address (seg : MinidumpMemorySegment)
    (virtual_address size : Nat) : Except String Unit :=
  if ¬ (seg.start_virtual_address ≤ virtual_address ∧
      virtual_address ≤ seg.end_virtual_address) then
    Except.error "Reading from wrong segment!"
  else if virtual_address + size > seg.end_virtual_address then
    Except.error "Read would cross boundaries!"
  else
    Except.ok ()

/-- MinidumpMemorySegment.read: validate, then tell / seek / read / seek
back.  The validation failure propagates before any file-handle operation,
so on that path the handle is returned untouched. -/
def MinidumpMemorySegment.read (seg : MinidumpMemorySegment)
    (virtual_address size : Nat) (file_handler : ByteReader) :
    Except String (List Nat) × ByteReader :=
  match seg.validate_address virtual_address size with
  | Except.error e => (Except.error e, file_handler)
  | Except.ok () =>
    let pos := file_handler.tell
    let offset := virtual_address - seg.start_virtual_address
    let fh1 := file_handler.seek (seg.start_file_address + offset)
    let (data, fh2) := fh1.read size
    let fh3 := fh2.seek pos
    (Except.ok data, fh3)

/-- Claim C5: validate_address(va, len) succeeds exactly when
start_virtual_address <= va <= end_virtual_address and
va + len <= end_virtual_address; additionally it accepts
va == end_virtual_address with len == 0. -/
theorem validate_address_iff (size sfa sva va len : Nat) :
    ((MinidumpMemorySegment.make size sfa sva).validate_address va len = Except.ok () ↔
      (MinidumpMemorySegment.make size sfa sva).start_virtual_address ≤ va ∧
      va ≤ (MinidumpMemorySegment.make size sfa sva).end_virtual_address ∧
      va + len ≤ (MinidumpMemorySegment.make size sfa sva).end_virtual_address) ∧
    (MinidumpMemorySegment.make size sfa sva).validate_address
      (MinidumpMemorySegment.make size sfa sva).end_virtual_address 0 = Except.ok () := by
  constructor
  · simp only [MinidumpMemorySegment.validate_address, MinidumpMemorySegment.make]
    split_ifs with h1 h2 <;> first | rfl | omega | (simp; omega)
  · simp only [MinidumpMemorySegment.validate_address, MinidumpMemorySegment.make]
    split_ifs with h1 h2 <;> first | rfl | omega

/-- Claim C10: inrange is the half-open membership test
start_virtual_address <= va < end_virtual_address; it rejects
va == end_virtual_address although validate_address(end, 0) succeeds, and
the two tests (inrange vs validate_address with len 0) agree everywhere
except exactly at va == end_virtual_address. -/
theorem inrange_halfopen_boundary (size sfa sva va : Nat) :
    ((MinidumpMemorySegment.make size sfa sva).inrange va = true ↔
      (MinidumpMemorySegment.make size sfa sva).start_virtual_address ≤ va ∧
      va < (MinidumpMemorySegment.make size sfa sva).end_virtual_address) ∧
    (MinidumpMemorySegment.make size sfa sva).inrange
      (MinidumpMemorySegment.make size sfa sva).end_virtual_address = false ∧
    (MinidumpMemorySegment.make size sfa sva).validate_address
      (MinidumpMemorySegment.make size sfa sva).end_virtual_address 0 = Except.ok () ∧
    (((MinidumpMemorySegment.make size sfa sva).inrange va = true ↔
        (MinidumpMemorySegment.make size sfa sva).validate_address va 0 = Except.ok ()) ↔
      va ≠ (MinidumpMemorySegment.make size sfa sva).end_virtual_address) := by
  refine ⟨?_, ?_, ?_, ?_⟩
  · simp [MinidumpMemorySegment.inrange, MinidumpMemorySegment.make]
  · simp [MinidumpMemorySegment.inrange, MinidumpMemorySegment.make]
  · simp only [MinidumpMemorySegment.validate_address, MinidumpMemorySegment.make]
    split_ifs with h1 h2 <;> first | rfl | omega
  · simp only [MinidumpMemorySegment.inrange, MinidumpMemorySegment.make,
      MinidumpMemorySegment.validate_address]
    split_ifs with h1 h2 <;> first | rfl | omega | (simp; omega)

/-- Claim C6: read leaves the backing source's cursor (in fact the whole
handle) unchanged, on the success path (tell / seek / read / seek back) and
on the validation-failure path (the exception propagates before any handle
operation); on success the returned bytes are the segment's backing bytes at
file offset start_file_address + (va - start_virtual_address). -/
theorem read_preserves_cursor (size sfa sva va len : Nat) (fh : ByteReader) :
    ((MinidumpMemorySegment.make size sfa sva).read va len fh).2 = fh ∧
    (∀ bs, ((MinidumpMemorySegment.make size sfa sva).read va len fh).1 = Except.ok bs →
      bs = (fh.data.drop (sfa + (va - sva))).take len) := by
  unfold MinidumpMemorySegment.read
  cases h : (MinidumpMemorySegment.make size sfa sva).validate_address va len with
  | error e => exact ⟨rfl, fun bs hbs => by simp at hbs⟩
  | ok u =>
    cases u
    refine ⟨?_, fun bs hbs => ?_⟩
    · simp [ByteReader.read, ByteReader.seek, ByteReader.tell]
    · simp only [ByteReader.read, ByteReader.seek, ByteReader.tell,
        MinidumpMemorySegment.make, Except.ok.injEq] at hbs
      exact hbs.symm

/-- Witness for C6: segment (size 3, file offset 1, virtual start 100),
reading 2 bytes at virtual address 101 from the file [9, 8, 7, 6] with the
cursor parked at 0 returns [7, 6] and restores the handle. -/
theorem read_preserves_cursor_witness :
    ((MinidumpMemorySegment.make 3 1 100).read 101 2 ⟨[9, 8, 7, 6], 0⟩).2 =
      ⟨[9, 8, 7, 6], 0⟩ ∧
    ([7, 6] : List Nat) = ((([9, 8, 7, 6] : List Nat)).drop (1 + (101 - 100))).take 2 :=
  ⟨(read_preserves_cursor 3 1 100 101 2 ⟨[9, 8, 7, 6], 0⟩).1,
   (read_preserves_cursor 3 1 100 101 2 ⟨[9, 8, 7, 6], 0⟩).2 [7, 6] rfl⟩

/-- Python bytes.find: index of the first occurrence of pat as a contiguous
substring of data (None for Python's -1).  An occurrence at index i means
the next pat.length bytes from i are exactly pat; the empty pattern occurs
at index 0. -/
def bfind (pat : List Nat) : List Nat → Option Nat
  | [] => if pat.isEmpty then some 0 else none
  | b :: rest =>
    if (b :: rest).take pat.length = pat then some 0
    else (bfind pat rest).map (fun i => i + 1)

/-- The find_first=False scan of MinidumpMemorySegment.search: while more
than pat.length bytes remain, find the first occurrence, record
marker + offset + start_virtual_address, and rescan from the byte after the
match START (data = data[marker+1:]).  The fuel argument only bounds the
iteration count; each iteration drops at least one byte, so fuel
data.length + 1 (what search passes) never runs out. -/
def searchLoop (pat : List Nat) (sva : Nat) : Nat → List Nat → Nat → List Nat
  | 0, _, _ => []
  | fuel + 1, data, offset =>
    if pat.length < data.length then
      match bfind pat data with
      | none => []
      | some marker =>
        (marker + offset + sva) ::
          searchLoop pat sva fuel (data.drop (marker + 1)) (offset + marker + 1)
    else []

/-- The find_first=True scan of MinidumpMemorySegment.search: grow a buffer
chunk by chunk (the chunk size is clamped to the bytes still missing) and
after every chunk search the WHOLE accumulated buffer; on the first match
restore the cursor and return the single virtual address.  The source's
while loop runs forever if the file is exhausted before segsize bytes are
accumulated (read then returns the empty string); with fuel segsize + 1 the
embedding agrees with the source on every input where the source
terminates. -/
def searchFirstLoop (pat : List Nat) (sva segsize pos : Nat) :
    Nat → Nat → List Nat → ByteReader → List Nat × ByteReader
  | 0, _, _, fh => ([], fh.seek pos)
  | fuel + 1, chunksize, data, fh =>
    if data.length < segsize then
      let cs := if chunksize > segsize - data.length then segsize - data.length
        else chunksize
      let (chunk, fh1) := fh.read cs
      let data1 := data ++ chunk
      match bfind pat data1 with
      | some marker => ([sva + marker], fh1.seek pos)
      | none => searchFirstLoop pat sva segsize pos fuel cs data1 fh1
    else ([], fh.seek pos)

/-- MinidumpMemorySegment.search.  The source's chunksize parameter defaults
to 50*1024; it is passed explicitly here.  find_first dispatches between the
chunked first-match scan and the whole-segment all-matches scan; every exit
path restores the cursor to its saved position. -/
def MinidumpMemorySegment.search (seg : MinidumpMemorySegment) (pattern : List Nat)
    (file_handler : ByteReader) (find_first : Bool) (chunksize : Nat) :
    List Nat × ByteReader :=
  if pattern.length > seg.size then ([], file_handler)
  else
    let pos := file_handler.tell
    let fh1 := file_handler.seek seg.start_file_address
    if find_first then
      searchFirstLoop pattern seg.start_virtual_address seg.size pos
        (seg.size + 1) (min chunksize seg.size) [] fh1
    else
      let (data, fh2) := fh1.read seg.size
      let fh3 := fh2.seek pos
      (searchLoop pattern seg.start_virtual_address (data.length + 1) data 0, fh3)

/-- Claim C2 counterexample: segment bytes "ABA" (size 3), pattern "ABA"
(0 < 3 <= 3, and the pattern occurs at offset 0), yet search with
find_first = False returns the empty list: the scan loop only runs while
strictly more than len(pattern) bytes remain, so an occurrence that is
flush with the end of the segment is never examined. -/
theorem search_all_misses_flush_match :
    ((MinidumpMemorySegment.make 3 0 500).search [65, 66, 65]
      ⟨[65, 66, 65], 0⟩ false 51200).1 = [] ∧
    bfind [65, 66, 65] [65, 66, 65] = some 0 ∧
    0 < 3 ∧ 3 ≤ 3 := by
  decide

/-- Claim C2 amended: with find_first = False the scan records a match and
resumes from the byte after the match start, but it stops as soon as at
most len(pattern) bytes remain, so an occurrence ending flush with the end
of the scanned bytes can be missed; whenever the pattern occurs in the
segment's bytes at a position followed by at least one further byte, the
result list is non-empty. -/
theorem search_all_nonempty_of_inner_occurrence
    (pat fileData : List Nat) (size sfa sva fpos p : Nat)
    (hfind : bfind pat ((fileData.drop sfa).take size) = some p)
    (hroom : p + pat.length < ((fileData.drop sfa).take size).length) :
    ((MinidumpMemorySegment.make size sfa sva).search pat
      ⟨fileData, fpos⟩ false 51200).1 ≠ [] := by
  have hDlen : ((fileData.drop sfa).take size).length ≤ size := by
    simp [List.length_take]
  have hguard : ¬ (pat.length > size) := by omega
  simp only [MinidumpMemorySegment.search, ByteReader.tell, ByteReader.seek,
    ByteReader.read, MinidumpMemorySegment.make, if_neg hguard, Bool.false_eq_true,
    if_false]
  simp only [searchLoop, if_pos (by omega :
      pat.length < ((fileData.drop sfa).take size).length), hfind]
  exact List.cons_ne_nil _ _

/-- Witness for the amended C2: file bytes "XABAY", segment of size 5 at
file offset 0, pattern "ABA" occurring at offset 1 with one byte after it;
the result list is non-empty. -/
theorem search_all_nonempty_witness :
    ((MinidumpMemorySegment.make 5 0 200).search [65, 66, 65]
      ⟨[88, 65, 66, 65, 89], 0⟩ false 51200).1 ≠ [] :=
  search_all_nonempty_of_inner_occurrence [65, 66, 65] [88, 65, 66, 65, 89]
    5 0 200 0 1 (by decide) (by decide)

/-- Claim C3: over segment bytes "ABABA" (size 5), search for "ABA" with
find_first = False returns exactly the two matches at virtual addresses
start_virtual_address + 0 and start_virtual_address + 2, in that order
(the rescan resumes one byte after each match START). -/
theorem search_ababa_rescan_policy (sva fpos : Nat) :
    ((MinidumpMemorySegment.make 5 0 sva).search [65, 66, 65]
      ⟨[65, 66, 65, 66, 65], fpos⟩ false 51200).1 = [sva, sva + 2] := by
  show ((0 + 0 + sva : Nat) :: (1 + 1 + sva) :: []) = [sva, sva + 2]
  simp
  omega

/-- Claim C4: with find_first = True and chunksize 4 over segment bytes
"AABCCDD" (size 7), the pattern "BCC" straddles the first chunk boundary
(bytes 4 and 5); because every iteration searches the whole accumulated
buffer, the result is [start_virtual_address + 2], not the empty list. -/
theorem search_first_across_chunk_boundary (sva fpos : Nat) :
    ((MinidumpMemorySegment.make 7 0 sva).search [66, 67, 67]
      ⟨[65, 65, 66, 67, 67, 68, 68], fpos⟩ true 4).1 = [sva + 2] := by
  rfl

/-- MINIDUMP_MEMORY_DESCRIPTOR64 (Memory64ListStream.py): full/64-form
entry, no per-entry file offset. -/
structure MINIDUMP_MEMORY_DESCRIPTOR64 where
  StartOfMemoryRange : Nat
  DataSize : Nat
deriving DecidableEq, Repr

/-- MINIDUMP_MEMORY_DESCRIPTOR64.to_bytes: two u64 LE fields. -/
def MINIDUMP_MEMORY_DESCRIPTOR64.to_bytes (v : MINIDUMP_MEMORY_DESCRIPTOR64) : List Nat :=
  toBytesLE 8 v.StartOfMemoryRange ++ toBytesLE 8 v.DataSize

/-- MINIDUMP_MEMORY_DESCRIPTOR64.parse: two 8-byte little-endian reads. -/
def MINIDUMP_MEMORY_DESCRIPTOR64.parse (buff : ByteReader) :
    MINIDUMP_MEMORY_DESCRIPTOR64 × ByteReader :=
  let (b1, buff1) := buff.read 8
  let (b2, buff2) := buff1.read 8
  ({ StartOfMemoryRange := fromBytesLE b1, DataSize := fromBytesLE b2 }, buff2)

/-- The list comprehension in MINIDUMP_MEMORY64_LIST.parse: n sequential
descriptor parses against the shared buffer. -/
def parseMemoryRanges : Nat → ByteReader →
    List MINIDUMP_MEMORY_DESCRIPTOR64 × ByteReader
  | 0, buff => ([], buff)
  | n + 1, buff =>
    let (d, buff1) := MINIDUMP_MEMORY_DESCRIPTOR64.parse buff
    let (ds, buff2) := parseMemoryRanges n buff1
    (d :: ds, buff2)

/-- MINIDUMP_MEMORY64_LIST (Memory64ListStream.py). -/
structure MINIDUMP_MEMORY64_LIST where
  NumberOfMemoryRanges : Nat
  BaseRva : Nat
  MemoryRanges : List MINIDUMP_MEMORY_DESCRIPTOR64
deriving DecidableEq, Repr

/-- MINIDUMP_MEMORY64_LIST.parse: count as u64 LE, base RVA as u64 LE, then
count descriptors. -/
def MINIDUMP_MEMORY64_LIST.parse (buff : ByteReader) :
    MINIDUMP_MEMORY64_LIST × ByteReader :=
  let (b1, buff1) := buff.read 8
  let n := fromBytesLE b1
  let (b2, buff2) := buff1.read 8
  let (rs, buff3) := parseMemoryRanges n buff2
  ({ NumberOfMemoryRanges := n, BaseRva := fromBytesLE b2, MemoryRanges := rs },
   buff3)

/-- MinidumpMemorySegment.parse_full (common_structs.py): a segment from a
full/64-form descriptor plus the caller-supplied running file offset. -/
def MinidumpMemorySegment.parse_full (memory_decriptor : MINIDUMP_MEMORY_DESCRIPTOR64)
    (rva : Nat) : MinidumpMemorySegment :=
  MinidumpMemorySegment.make memory_decriptor.DataSize rva
    memory_decriptor.StartOfMemoryRange

/-- The accumulation loop of MinidumpMemory64List.from_chunk_data: rva
starts at the list-level BaseRva and grows by each entry's DataSize after
that entry's segment is built. -/
def buildSegments : Nat → List MINIDUMP_MEMORY_DESCRIPTOR64 →
    List MinidumpMemorySegment
  | _, [] => []
  | rva, md :: rest =>
    MinidumpMemorySegment.parse_full md rva ::
      buildSegments (rva + md.DataSize) rest

/-- MinidumpMemory64List (Memory64ListStream.py). -/
structure MinidumpMemory64List where
  memory_segments : List MinidumpMemorySegment
deriving DecidableEq, Repr

/-- MinidumpMemory64List.from_chunk_data: parse the MINIDUMP_MEMORY64_LIST
header out of the chunk bytes, then run the running-offset accumulation
loop over its entries. -/
def MinidumpMemory64List.from_chunk_data (chunk_data : List Nat) :
    MinidumpMemory64List :=
  let (mtl, _) := MINIDUMP_MEMORY64_LIST.parse ⟨chunk_data, 0⟩
  ⟨buildSegments mtl.BaseRva mtl.MemoryRanges⟩

/-- Claim C1: the full/64-form builder produces one segment per entry in
on-disk order, and entry i's segment is parse_full of that entry at file
offset BaseRva + sum of the DataSize of entries 0..i-1 (so the file
offsets are the running prefix sums, which depend on entry order). -/
theorem build_segments_running_offsets (B : Nat)
    (rs : List MINIDUMP_MEMORY_DESCRIPTOR64) :
    (buildSegments B rs).length = rs.length ∧
    ∀ i (h : i < rs.length),
      (buildSegments B rs)[i]? =
        some (MinidumpMemorySegment.parse_full rs[i]
          (B + ((rs.take i).map MINIDUMP_MEMORY_DESCRIPTOR64.DataSize).sum)) := by
  induction rs generalizing B with
  | nil => exact ⟨rfl, fun i h => absurd h (by simp)⟩
  | cons d rest ih =>
    refine ⟨by simp [buildSegments, (ih (B + d.DataSize)).1], ?_⟩
    intro i h
    cases i with
    | zero => simp [buildSegments]
    | succ j =>
      have hj : j < rest.length := by simpa using h
      have hrec := (ih (B + d.DataSize)).2 j hj
      simp [buildSegments, hrec, Nat.add_assoc]

/-- Witness for C1 on a three-entry list with sizes [4, 6, 2] and base
offset 100: the third segment sits at file offset 100 + 4 + 6 = 110. -/
theorem build_segments_running_offsets_witness :
    (buildSegments 100 [⟨1000, 4⟩, ⟨2000, 6⟩, ⟨3000, 2⟩])[2]? =
      some (MinidumpMemorySegment.parse_full ⟨3000, 2⟩ 110) := by
  have h := (build_segments_running_offsets 100
    [⟨1000, 4⟩, ⟨2000, 6⟩, ⟨3000, 2⟩]).2 2 (by decide)
  simpa using h

/-- MINIDUMP_MEMORY_DESCRIPTOR (MemoryListStream.py): simple-form entry.
The dataclass stores the parsed location descriptor and duplicates its two
fields for direct access. -/
structure MINIDUMP_MEMORY_DESCRIPTOR where
  StartOfMemoryRange : Nat
  MemoryLocation : MINIDUMP_LOCATION_DESCRIPTOR
  DataSize : Nat
  Rva : Nat
deriving DecidableEq, Repr

/-- MINIDUMP_MEMORY_DESCRIPTOR.to_bytes.  The source serializes
StartOfMemoryRange with to_bytes(4, ...), i.e. as a 32-bit field, followed
by the 8-byte location descriptor: 12 bytes in total. -/
def MINIDUMP_MEMORY_DESCRIPTOR.to_bytes (v : MINIDUMP_MEMORY_DESCRIPTOR) : List Nat :=
  toBytesLE 4 v.StartOfMemoryRange ++ v.MemoryLocation.to_bytes

/-- MINIDUMP_MEMORY_DESCRIPTOR.parse.  The source parses the location
descriptor FIRST (the statement before the constructor call) and only then
reads StartOfMemoryRange as u64. -/
def MINIDUMP_MEMORY_DESCRIPTOR.parse (buff : ByteReader) :
    MINIDUMP_MEMORY_DESCRIPTOR × ByteReader :=
  let (loc, buff1) := MINIDUMP_LOCATION_DESCRIPTOR.parse buff
  let (b, buff2) := buff1.read 8
  ({ StartOfMemoryRange := fromBytesLE b, MemoryLocation := loc,
     DataSize := loc.DataSize, Rva := loc.Rva }, buff2)

/-- MinidumpMemorySegment.parse_mini (common_structs.py): a segment from a
simple-form descriptor, whose file offset is the descriptor's own Rva. -/
def MinidumpMemorySegment.parse_mini (memory_decriptor : MINIDUMP_MEMORY_DESCRIPTOR) :
    MinidumpMemorySegment :=
  MinidumpMemorySegment.make memory_decriptor.DataSize memory_decriptor.Rva
    memory_decriptor.StartOfMemoryRange

/-- Claim C7 (code evidence): feed parse the documented 16-byte layout
startVirtualAddress = 1 (u64 LE) followed by the 32-bit location descriptor
DataSize = 2, fileOffset = 3 (u32 LE each).  The code consumes the FIRST 8
bytes as the location descriptor (getting DataSize = 1, Rva = 0) and the
LAST 8 bytes as StartOfMemoryRange (getting 2 + 3 * 2^32 = 12884901890),
not the documented field order; and to_bytes of the descriptor
(startVA = 1, DataSize = 2, Rva = 3) emits 12 bytes, not 16, because
StartOfMemoryRange is serialized as a 32-bit field. -/
theorem memory_descriptor_layout_mismatch :
    (MINIDUMP_MEMORY_DESCRIPTOR.parse
        ⟨toBytesLE 8 1 ++ (toBytesLE 4 2 ++ toBytesLE 4 3), 0⟩).1 =
      ⟨12884901890, ⟨1, 0⟩, 1, 0⟩ ∧
    (MINIDUMP_MEMORY_DESCRIPTOR.to_bytes ⟨1, ⟨2, 3⟩, 2, 3⟩).length = 12 := by
  constructor <;> rfl
